import Mathlib

/-!
Shallow embedding of the capture decision pipeline (src/raspberry) and the
stream relay (src/server/services/stream_relay.py) of the motion-canvas
repository, with theorems settling the specification claims.

Real-valued quantities of the source (timestamps, confidences, area
fractions — Python floats) are modelled as rationals; pixel offsets
(Python ints) as integers, nonnegative pixel sizes as naturals.
-/

/-! Section: Data model -/

/-- The `BoundingBox` dataclass, src/raspberry/vision/person_detector.py lines 20-39. -/
structure BoundingBox where
  x : Int
  y : Int
  width : Int
  height : Int
  confidence : ℚ
deriving DecidableEq

/-- Derived `x2 = x + width` (person_detector.py line 30). -/
def BoundingBox.x2 (b : BoundingBox) : Int := b.x + b.width

/-- Derived `y2 = y + height` (person_detector.py line 34). -/
def BoundingBox.y2 (b : BoundingBox) : Int := b.y + b.height

/-- Derived area `width * height`. -/
def BoundingBox.area (b : BoundingBox) : Int := b.width * b.height

/-- A camera frame, reduced to its pixel dimensions (`frame.shape[:2]`). -/
structure Frame where
  width : Nat
  height : Nat
deriving DecidableEq

/-! Section: Stream relay (src/server/services/stream_relay.py) -/

/-- The `StreamFrame` dataclass (stream_relay.py lines 13-17); bytes are a list of byte values. -/
structure StreamFrame where
  data : List Nat
  timestamp : ℚ
deriving DecidableEq

/-- State of the `StreamRelay` singleton (stream_relay.py lines 23-32).
Each element of `clients` is one subscriber's `asyncio.Queue`, front = oldest. -/
structure RelayState where
  latestFrame : Option (List Nat)
  frameTimestamp : ℚ
  clients : List (List (List Nat))
  connectedSource : Bool
  sourceId : Option String
  frameBuffer : List StreamFrame
deriving DecidableEq

/-- Each `subscribe()` call creates an `asyncio.Queue(maxsize=10)` (stream_relay.py line 108). -/
def clientQueueCapacity : Nat := 10

/-- Embeds `StreamRelay.connect_source` (stream_relay.py lines 49-59): records the id and
succeeds iff no source is currently connected. Returns (new state, success). -/
def StreamRelay.connectSource (s : RelayState) (sourceId : String) : RelayState × Bool :=
  if s.connectedSource then (s, false)
  else ({ s with connectedSource := true, sourceId := some sourceId }, true)

/-- Embeds `StreamRelay.disconnect_source` (stream_relay.py lines 61-68): clears the
connection, the source id and the cached latest frame, only on an id match. -/
def StreamRelay.disconnectSource (s : RelayState) (sourceId : String) : RelayState :=
  if s.sourceId = some sourceId then
    { s with connectedSource := false, sourceId := none, latestFrame := none }
  else s

/-- One subscriber queue receiving a frame in `push_frame` (stream_relay.py lines
83-93): if the queue is full, `get_nowait` drops the oldest item, then
`put_nowait` appends the new frame (a `QueueFull` exception would be swallowed). -/
def pushToClient (cap : Nat) (q : List (List Nat)) (frameData : List Nat) : List (List Nat) :=
  let q1 := if cap ≤ q.length then q.tail else q
  if q1.length < cap then q1 ++ [frameData] else q1

/-- Embeds `StreamRelay.push_frame` (stream_relay.py lines 70-93): overwrite the latest
frame, append to the bounded history deque (maxlen drops the oldest), fan out
to every subscriber queue. -/
def StreamRelay.pushFrame (maxFrames : Nat) (s : RelayState) (frameData : List Nat)
    (now : ℚ) : RelayState :=
  let buf := s.frameBuffer ++ [⟨frameData, now⟩]
  { s with
    latestFrame := some frameData
    frameTimestamp := now
    frameBuffer := if maxFrames < buf.length then buf.tail else buf
    clients := s.clients.map fun q => pushToClient clientQueueCapacity q frameData }

/-- A burst of `push_frame` calls as seen by one subscriber queue. -/
def pushBurst (cap : Nat) (q : List (List Nat)) (frames : List (List Nat)) : List (List Nat) :=
  frames.foldl (pushToClient cap) q

/-! Section: Capture decision engine (src/raspberry/main.py) -/

/-- The configuration values read by `AIArtCapture._process_frame`.
`pirEnabled` is `self.pir_sensor and pir_config.enabled` (main.py line 200);
`requirePir` is `pir_config.require_pir_for_capture`; `detectionActive` is
`detection_config.enabled and (self.detector or self.mediapipe_detector)`
(main.py line 217); `minBboxShare` is `detection_config.min_bbox_area_ratio`;
`apiClientPresent` is `self.api_client` being set (main.py line 300). -/
structure CaptureConfig where
  pirEnabled : Bool
  requirePir : Bool
  detectionActive : Bool
  cooldownSeconds : ℚ
  useFullFrame : Bool
  minBboxShare : ℚ
  bboxScaleUp : ℚ
  apiClientPresent : Bool
deriving DecidableEq

/-- The mutable engine state touched by one tick (main.py lines 49-50). -/
structure EngineState where
  lastCaptureTime : ℚ
  pirMotionDetected : Bool
deriving DecidableEq

/-- The external inputs consumed by one tick of `_process_frame`:
the wall-clock reads (`gateTime` at `_can_capture`, `uploadTime` at the
success branch), the two camera captures, the detector's result, and the
outcomes of JPEG encoding and of the upload. -/
structure TickEnv where
  gateTime : ℚ
  uploadTime : ℚ
  firstFrame : Option Frame
  finalFrame : Option Frame
  detections : List BoundingBox
  encodeOk : Bool
  uploadSuccess : Bool
deriving DecidableEq

/-- Observable outcome of one `_process_frame` call: the new engine state, the
returned boolean, which effects were attempted, which detection the crop path
chose (`detections[0]`), and whether the bbox-expansion branch fired. -/
structure TickResult where
  state : EngineState
  success : Bool
  firstCaptureAttempted : Bool
  finalCaptureAttempted : Bool
  uploadAttempted : Bool
  chosenDetection : Option BoundingBox
  expandTriggered : Bool
deriving DecidableEq

/-- Embeds `AIArtCapture._can_capture` (main.py lines 182-186):
`(now - last_capture_time) >= cooldown_seconds`. -/
def AIArtCapture.canCapture (cooldown lastTime now : ℚ) : Bool :=
  decide (cooldown ≤ now - lastTime)

/-- Tail of `_process_frame` (main.py lines 290-310): JPEG encoding, then the
upload; only a successful upload sets `last_capture_time` and returns `True`. -/
def encodeAndUpload (cfg : CaptureConfig) (env : TickEnv) (s1 : EngineState)
    (finalAtt : Bool) (chosen : Option BoundingBox) (expanded : Bool) : TickResult :=
  if env.encodeOk = false then
    ⟨s1, false, true, finalAtt, false, chosen, expanded⟩
  else if cfg.apiClientPresent = false then
    ⟨s1, false, true, finalAtt, false, chosen, expanded⟩
  else if env.uploadSuccess then
    ⟨{ s1 with lastCaptureTime := env.uploadTime }, true, true, finalAtt, true, chosen, expanded⟩
  else
    ⟨s1, false, true, finalAtt, true, chosen, expanded⟩

/-- The PIR read-and-clear of `_process_frame` (main.py lines 199-205): the
pending-motion flag is consumed when the sensor path is active. -/
def AIArtCapture.pirCleared (cfg : CaptureConfig) (s : EngineState) : EngineState :=
  if cfg.pirEnabled && s.pirMotionDetected then { s with pirMotionDetected := false } else s

/-- Embeds `AIArtCapture._process_frame` (main.py lines 188-310), assuming the engine
is initialized (`self.camera` and `self.segmenter` set). The hard PIR gate is
line 208, the first capture line 212, detection lines 217-231, the cooldown
gate lines 233-235 and 286-287, the final capture lines 259-261, region
selection lines 264-283. -/
def AIArtCapture.processFrame (cfg : CaptureConfig) (env : TickEnv) (s : EngineState) :
    TickResult :=
  let pirTriggered := cfg.pirEnabled && s.pirMotionDetected
  let s1 := AIArtCapture.pirCleared cfg s
  if cfg.pirEnabled && cfg.requirePir && !pirTriggered then
    ⟨s1, false, false, false, false, none, false⟩
  else
    match env.firstFrame with
    | none => ⟨s1, false, true, false, false, none, false⟩
    | some _ =>
      if cfg.detectionActive then
        match env.detections with
        | [] => ⟨s1, false, true, false, false, none, false⟩
        | bbox :: _ =>
          if !(AIArtCapture.canCapture cfg.cooldownSeconds s1.lastCaptureTime env.gateTime) then
            ⟨s1, false, true, false, false, none, false⟩
          else
            match env.finalFrame with
            | none => ⟨s1, false, true, true, false, none, false⟩
            | some frame2 =>
              if cfg.useFullFrame then
                encodeAndUpload cfg env s1 true none false
              else
                let share : ℚ :=
                  ((bbox.width * bbox.height : Int) : ℚ) /
                    ((frame2.width : ℚ) * (frame2.height : ℚ))
                encodeAndUpload cfg env s1 true (some bbox)
                  (decide (share < cfg.minBboxShare))
      else
        if !(AIArtCapture.canCapture cfg.cooldownSeconds s1.lastCaptureTime env.gateTime) then
          ⟨s1, false, true, false, false, none, false⟩
        else
          encodeAndUpload cfg env s1 false none false

/-- The sequence of `last_capture_time` values recorded by successful cycles
when the poll loop (main.py lines 348-360) runs through a list of tick inputs. -/
def runCaptureTimes (cfg : CaptureConfig) : EngineState → List TickEnv → List ℚ
  | _, [] => []
  | s, e :: rest =>
    let r := AIArtCapture.processFrame cfg e s
    if r.success then r.state.lastCaptureTime :: runCaptureTimes cfg r.state rest
    else runCaptureTimes cfg r.state rest

/-! Section: Person detector (src/raspberry/vision/person_detector.py) -/

/-- A rectangle as returned by `cv2.HOGDescriptor.detectMultiScale`
(nonnegative pixel values). -/
structure Rect where
  x : Nat
  y : Nat
  width : Nat
  height : Nat
deriving DecidableEq

/-- The internal flags of `PersonDetector` at `detect` time:
`self._is_initialized`, the module-level `HAS_CV2`, and whether
`self._detector` is set. -/
structure DetectorState where
  isInitialized : Bool
  hasCv2 : Bool
  hasDetector : Bool
deriving DecidableEq

/-- Outcome of the `detectMultiScale` call inside `detect` (person_detector.py
lines 114-119): either it raises, or it yields rectangles together with
weights when those arrive as a Python list/tuple (`none` models a weights
value that is not a list or tuple, e.g. a numpy array). -/
inductive MultiScaleOutcome where
  | err : MultiScaleOutcome
  | ok : List Rect → Option (List ℚ) → MultiScaleOutcome
deriving DecidableEq

/-- The dummy detection built when OpenCV is missing, the detector object is
absent, or `detectMultiScale` raised (person_detector.py lines 88-96 and
154-161): the center half of the frame, confidence 0.95. -/
def mockBoundingBox (w h : Nat) : BoundingBox :=
  { x := (w / 4 : Nat)
    y := (h / 4 : Nat)
    width := (w / 2 : Nat)
    height := (h / 2 : Nat)
    confidence := 95 / 100 }

/-- Per-detection confidence (person_detector.py line 127):
`weights[i]` when weights is a list/tuple and `i` is in range, else `0.5`. -/
def hogConfidence (weights : Option (List ℚ)) (i : Nat) : ℚ :=
  match weights with
  | some ws => if i < ws.length then ws.getD i 0 else 1 / 2
  | none => 1 / 2

/-- The padded bounding box built for one kept rectangle (person_detector.py
lines 133-143): 20% margins via `int(width * 0.2)` (= `width / 5` on these
nonnegative integers), `max(0, ...)` on offsets, sizes capped by the frame,
confidence capped at 1. -/
def hogPadBox (frameW frameH : Nat) (r : Rect) (conf : ℚ) : BoundingBox :=
  let px : Nat := r.width / 5
  let py : Nat := r.height / 5
  { x := max 0 ((r.x : Int) - px)
    y := max 0 ((r.y : Int) - py)
    width := min (frameW : Int) ((r.width : Int) + 2 * px)
    height := min (frameH : Int) ((r.height : Int) + 2 * py)
    confidence := min 1 conf }

/-- The `for i, (x, y, width, height) in enumerate(rects)` loop of `detect`
(person_detector.py lines 121-144): drop rectangles whose confidence is below
`min_detection_confidence`, pad and collect the rest, preserving order. -/
def hogLoop (minConf : ℚ) (frameW frameH : Nat) (weights : Option (List ℚ)) :
    Nat → List Rect → List BoundingBox
  | _, [] => []
  | i, r :: rest =>
    let conf := hogConfidence weights i
    if conf < minConf then hogLoop minConf frameW frameH weights (i + 1) rest
    else hogPadBox frameW frameH r conf :: hogLoop minConf frameW frameH weights (i + 1) rest

/-- Embeds `PersonDetector.detect` (person_detector.py lines 72-162). -/
def PersonDetector.detect (minConf : ℚ) (st : DetectorState) (frameW frameH : Nat)
    (outcome : MultiScaleOutcome) : List BoundingBox :=
  if !st.isInitialized then []
  else if !st.hasCv2 || !st.hasDetector then [mockBoundingBox frameW frameH]
  else
    match outcome with
    | .err => [mockBoundingBox frameW frameH]
    | .ok rects weights => hogLoop minConf frameW frameH weights 0 rects

/-! Section: Image segmenter (src/raspberry/vision/segmentation.py) -/

/-- A region of a frame with rational edges, `x1 ≤ x2`/`y1 ≤ y2` intended. -/
structure RatBox where
  x1 : ℚ
  y1 : ℚ
  x2 : ℚ
  y2 : ℚ
deriving DecidableEq

/-- Area of a rational region. -/
def RatBox.area (b : RatBox) : ℚ := (b.x2 - b.x1) * (b.y2 - b.y1)

/-- Modelled from the spec: `ImageSegmenter.expand_bbox` is called at
src/raspberry/main.py line 276 but its definition is missing from
src/raspberry/vision/segmentation.py. Per the spec it scales the box up
around its own center by the `bbox_scale_up` factor, with the result clamped
to the frame bounds. Coordinates are modelled as exact rationals. -/
def ImageSegmenter.expandBbox (b : BoundingBox) (frameW frameH scale : ℚ) : RatBox :=
  let cx : ℚ := (b.x : ℚ) + (b.width : ℚ) / 2
  let cy : ℚ := (b.y : ℚ) + (b.height : ℚ) / 2
  let newW : ℚ := (b.width : ℚ) * scale
  let newH : ℚ := (b.height : ℚ) * scale
  { x1 := max 0 (cx - newW / 2)
    y1 := max 0 (cy - newH / 2)
    x2 := min frameW (cx + newW / 2)
    y2 := min frameH (cy + newH / 2) }

/-- Embeds `ImageSegmenter.crop_bbox` (segmentation.py lines 19-43): the crop window
clamped to the frame, `x1 = max(0, x)`, `x2 = min(w, x2)` and likewise for y. -/
def ImageSegmenter.cropWindow (frameW frameH : Nat) (b : BoundingBox) : RatBox :=
  { x1 := (max 0 b.x : Int)
    y1 := (max 0 b.y : Int)
    x2 := (min (frameW : Int) b.x2 : Int)
    y2 := (min (frameH : Int) b.y2 : Int) }

/-! Section: Sample states used by the witnesses -/

/-- A fresh relay, as built by `StreamRelay.__init__`. -/
def sampleRelay : RelayState :=
  { latestFrame := none, frameTimestamp := 0, clients := [], connectedSource := false
    sourceId := none, frameBuffer := [] }

/-- A relay with a connected source and a cached frame. -/
def sampleRelayConnected : RelayState :=
  { latestFrame := some [7], frameTimestamp := 1, clients := [[[3]]], connectedSource := true
    sourceId := some "pi-1", frameBuffer := [⟨[7], 1⟩] }

/-! Section: Stream relay claims -/

/-- C4: `connect_source(id)` succeeds and records `id` iff no source is
connected; `connect_source(A)` then `connect_source(B)` while A is connected
leaves the recorded source id `A` and returns failure for B, and a rejected
call mutates nothing. -/
theorem connectSource_arbitration (s : RelayState) (a b : String) :
    ((StreamRelay.connectSource s a).2 = true ↔ s.connectedSource = false) ∧
    (s.connectedSource = false →
      (StreamRelay.connectSource s a).1.sourceId = some a ∧
      (StreamRelay.connectSource s a).1.connectedSource = true ∧
      (StreamRelay.connectSource (StreamRelay.connectSource s a).1 b).2 = false ∧
      (StreamRelay.connectSource (StreamRelay.connectSource s a).1 b).1.sourceId = some a) ∧
    ((StreamRelay.connectSource s a).2 = false → (StreamRelay.connectSource s a).1 = s) := by
  unfold StreamRelay.connectSource
  by_cases h : s.connectedSource <;> simp [h]

/-- Witness for C4 at a fresh relay: the first connect succeeds and records
its id, the second is rejected with the first id still in place. -/
theorem connectSource_arbitration_wit :
    ((StreamRelay.connectSource sampleRelay "pi-1").2 = true ↔
      sampleRelay.connectedSource = false) ∧
    (StreamRelay.connectSource sampleRelay "pi-1").1.sourceId = some "pi-1" ∧
    (StreamRelay.connectSource sampleRelay "pi-1").1.connectedSource = true ∧
    (StreamRelay.connectSource (StreamRelay.connectSource sampleRelay "pi-1").1 "pi-2").2
      = false ∧
    (StreamRelay.connectSource (StreamRelay.connectSource sampleRelay "pi-1").1 "pi-2").1.sourceId
      = some "pi-1" :=
  ⟨(connectSource_arbitration sampleRelay "pi-1" "pi-2").1,
    (connectSource_arbitration sampleRelay "pi-1" "pi-2").2.1 rfl⟩

/-- C8: a stale `disconnect_source(A)` while the current source is `B ≠ A`
changes nothing; a matching `disconnect_source` clears the connection flag,
the source id, and the cached latest frame. -/
theorem disconnectSource_guarded (s : RelayState) (a b : String) :
    (s.sourceId = some b → a ≠ b → StreamRelay.disconnectSource s a = s) ∧
    (s.sourceId = some a →
      (StreamRelay.disconnectSource s a).connectedSource = false ∧
      (StreamRelay.disconnectSource s a).sourceId = none ∧
      (StreamRelay.disconnectSource s a).latestFrame = none) := by
  unfold StreamRelay.disconnectSource
  constructor
  · intro hb hab
    rw [hb]
    have : ¬ ((some b : Option String) = some a) := by
      simp only [Option.some.injEq]
      exact fun h => hab h.symm
    simp [this]
  · intro ha
    simp [ha]

/-- Witness for C8: a stale disconnect leaves the connected relay untouched,
a matching disconnect clears the flag, the id and the cached frame. -/
theorem disconnectSource_guarded_wit :
    StreamRelay.disconnectSource sampleRelayConnected "pi-9" = sampleRelayConnected ∧
    (StreamRelay.disconnectSource sampleRelayConnected "pi-1").connectedSource = false ∧
    (StreamRelay.disconnectSource sampleRelayConnected "pi-1").sourceId = none ∧
    (StreamRelay.disconnectSource sampleRelayConnected "pi-1").latestFrame = none :=
  ⟨(disconnectSource_guarded sampleRelayConnected "pi-9" "pi-1").1 rfl (by decide),
    (disconnectSource_guarded sampleRelayConnected "pi-1" "pi-2").2 rfl⟩

/-- One `push_frame` delivery never grows a subscriber queue past its
capacity, and always leaves the new frame at the back. -/
lemma pushToClient_spec (cap : Nat) (q : List (List Nat)) (f : List Nat)
    (hcap : 0 < cap) (hq : q.length ≤ cap) :
    (pushToClient cap q f).length ≤ cap ∧ (pushToClient cap q f).getLast? = some f := by
  unfold pushToClient
  by_cases hfull : cap ≤ q.length
  · have hlen : q.length = cap := le_antisymm hq hfull
    have htail : q.tail.length = cap - 1 := by simp [hlen]
    have hlt : cap - 1 < cap := Nat.sub_lt hcap one_pos
    simp only [hfull, if_true, htail, hlt, if_pos]
    constructor
    · simp [htail]
      omega
    · exact List.getLast?_concat _
  · have hlt : q.length < cap := lt_of_not_ge hfull
    simp only [hfull, if_false, hlt, if_pos]
    constructor
    · simp
      omega
    · exact List.getLast?_concat _

/-- A burst of deliveries keeps the queue within capacity. -/
lemma pushBurst_length_le (cap : Nat) (frames : List (List Nat)) (q : List (List Nat))
    (hcap : 0 < cap) (hq : q.length ≤ cap) :
    (pushBurst cap q frames).length ≤ cap := by
  induction frames generalizing q with
  | nil => exact hq
  | cons f rest ih =>
    exact ih _ (pushToClient_spec cap q f hcap hq).1

/-- After a nonempty burst, the queue's last element is the burst's last frame. -/
lemma pushBurst_getLast (cap : Nat) (frames : List (List Nat)) (q : List (List Nat))
    (hcap : 0 < cap) (hq : q.length ≤ cap) (hne : frames ≠ []) :
    (pushBurst cap q frames).getLast? = frames.getLast? := by
  induction frames generalizing q with
  | nil => exact absurd rfl hne
  | cons f rest ih =>
    cases rest with
    | nil =>
      show (pushToClient cap q f).getLast? = [f].getLast?
      rw [(pushToClient_spec cap q f hcap hq).2]
      rfl
    | cons g rest2 =>
      have h1 : pushBurst cap q (f :: g :: rest2) = pushBurst cap (pushToClient cap q f) (g :: rest2) := rfl
      rw [h1, ih _ (pushToClient_spec cap q f hcap hq).1 (by simp)]
      rfl

/-- C5: for every sequence of `push_frame` calls against a subscriber queue of
fixed capacity, the queue never exceeds that capacity; a full queue first drops
its oldest item; and after the burst the most recently pushed frame is present,
at the back of the queue. The relay fans a pushed frame out to every
subscriber queue this way and caches it as the latest frame. -/
theorem pushFrame_backpressure (cap : Nat) (q : List (List Nat)) (frames : List (List Nat))
    (f : List Nat) (hcap : 0 < cap) (hq : q.length ≤ cap)
    (hlast : frames.getLast? = some f) :
    (pushBurst cap q frames).length ≤ cap ∧
    (pushBurst cap q frames).getLast? = some f ∧
    f ∈ pushBurst cap q frames ∧
    (∀ qF : List (List Nat), qF.length = cap →
      pushToClient cap qF f = qF.tail ++ [f]) ∧
    (∀ (maxFrames : Nat) (s : RelayState) (now : ℚ),
      (StreamRelay.pushFrame maxFrames s f now).clients
        = s.clients.map (fun q2 => pushToClient clientQueueCapacity q2 f) ∧
      (StreamRelay.pushFrame maxFrames s f now).latestFrame = some f) := by
  have hne : frames ≠ [] := by
    intro h
    rw [h] at hlast
    exact Option.noConfusion hlast
  have hlastq : (pushBurst cap q frames).getLast? = some f := by
    rw [pushBurst_getLast cap frames q hcap hq hne, hlast]
  refine ⟨pushBurst_length_le cap frames q hcap hq, hlastq,
    List.mem_of_mem_getLast? hlastq, ?_, fun maxFrames s now => ⟨rfl, rfl⟩⟩
  intro qF hlen
  unfold pushToClient
  have hfull : cap ≤ qF.length := le_of_eq hlen.symm
  have htail : qF.tail.length = cap - 1 := by simp [hlen]
  have hlt : cap - 1 < cap := Nat.sub_lt hcap one_pos
  simp [hfull, htail, hlt]

/-- Witness for C5: a burst of three frames into a queue holding two, at
capacity 10. -/
theorem pushFrame_backpressure_wit :
    (pushBurst 10 [[1], [2]] [[3], [4], [5]]).length ≤ 10 ∧
    (pushBurst 10 [[1], [2]] [[3], [4], [5]]).getLast? = some [5] ∧
    [5] ∈ pushBurst 10 [[1], [2]] [[3], [4], [5]] ∧
    (∀ qF : List (List Nat), qF.length = 10 →
      pushToClient 10 qF [5] = qF.tail ++ [[5]]) ∧
    (∀ (maxFrames : Nat) (s : RelayState) (now : ℚ),
      (StreamRelay.pushFrame maxFrames s [5] now).clients
        = s.clients.map (fun q2 => pushToClient clientQueueCapacity q2 [5]) ∧
      (StreamRelay.pushFrame maxFrames s [5] now).latestFrame = some [5]) :=
  pushFrame_backpressure 10 [[1], [2]] [[3], [4], [5]] [5] (by decide) (by decide) (by decide)

/-! Section: Capture engine claims -/

/-- Case analysis of the encode/upload tail: only a reported upload success
returns `True` and rewrites `last_capture_time` to the success-time read. -/
lemma encodeAndUpload_spec (cfg : CaptureConfig) (env : TickEnv) (s1 : EngineState)
    (fa : Bool) (ch : Option BoundingBox) (ex : Bool) :
    ((encodeAndUpload cfg env s1 fa ch ex).success = true →
      env.uploadSuccess = true ∧ (encodeAndUpload cfg env s1 fa ch ex).uploadAttempted = true ∧
      (encodeAndUpload cfg env s1 fa ch ex).state =
        { s1 with lastCaptureTime := env.uploadTime }) ∧
    ((encodeAndUpload cfg env s1 fa ch ex).success = false →
      (encodeAndUpload cfg env s1 fa ch ex).state = s1) ∧
    ((encodeAndUpload cfg env s1 fa ch ex).uploadAttempted = true →
      env.uploadSuccess = true → (encodeAndUpload cfg env s1 fa ch ex).success = true) := by
  unfold encodeAndUpload
  by_cases he : env.encodeOk <;> by_cases ha : cfg.apiClientPresent <;>
    by_cases hu : env.uploadSuccess <;> simp [he, ha, hu]

/-- The PIR read-and-clear never touches `last_capture_time`. -/
lemma pirCleared_lastCaptureTime (cfg : CaptureConfig) (s : EngineState) :
    (AIArtCapture.pirCleared cfg s).lastCaptureTime = s.lastCaptureTime := by
  unfold AIArtCapture.pirCleared
  split <;> rfl

/-- Every tick either aborts with the PIR-cleared state and no upload attempt,
or reaches the encode/upload tail having passed the cooldown gate. -/
lemma processFrame_outcomes (cfg : CaptureConfig) (env : TickEnv) (s : EngineState) :
    (∃ fa fi : Bool, AIArtCapture.processFrame cfg env s =
      ⟨AIArtCapture.pirCleared cfg s, false, fa, fi, false, none, false⟩) ∨
    ((∃ (fi : Bool) (ch : Option BoundingBox) (ex : Bool),
        AIArtCapture.processFrame cfg env s =
          encodeAndUpload cfg env (AIArtCapture.pirCleared cfg s) fi ch ex) ∧
      cfg.cooldownSeconds ≤ env.gateTime - s.lastCaptureTime) := by
  unfold AIArtCapture.processFrame
  by_cases hA : (cfg.pirEnabled && cfg.requirePir && !(cfg.pirEnabled && s.pirMotionDetected))
      = true
  · rw [if_pos hA]
    exact Or.inl ⟨false, false, rfl⟩
  · rw [if_neg hA]
    rcases hF : env.firstFrame with _ | fr
    · exact Or.inl ⟨true, false, rfl⟩
    · have hgle : ¬((!(AIArtCapture.canCapture cfg.cooldownSeconds
          (AIArtCapture.pirCleared cfg s).lastCaptureTime env.gateTime)) = true) →
          cfg.cooldownSeconds ≤ env.gateTime - s.lastCaptureTime := by
        intro hg
        have hb : AIArtCapture.canCapture cfg.cooldownSeconds
            (AIArtCapture.pirCleared cfg s).lastCaptureTime env.gateTime = true := by
          rcases Bool.eq_false_or_eq_true (AIArtCapture.canCapture cfg.cooldownSeconds
              (AIArtCapture.pirCleared cfg s).lastCaptureTime env.gateTime) with hb | hb
          · exact hb
          · exact absurd (by rw [hb]; rfl) hg
        rw [AIArtCapture.canCapture, pirCleared_lastCaptureTime, decide_eq_true_eq] at hb
        exact hb
      by_cases hAct : cfg.detectionActive = true
      · rcases hD : env.detections with _ | ⟨bbox, rest⟩
        · exact Or.inl ⟨true, false, by simp [hAct, hD]⟩
        · by_cases hGate : (!(AIArtCapture.canCapture cfg.cooldownSeconds
              (AIArtCapture.pirCleared cfg s).lastCaptureTime env.gateTime)) = true
          · exact Or.inl ⟨true, false, by simp [hAct, hGate]⟩
          · have hGf : (!(AIArtCapture.canCapture cfg.cooldownSeconds
                (AIArtCapture.pirCleared cfg s).lastCaptureTime env.gateTime)) = false := by
              rcases Bool.eq_false_or_eq_true (!(AIArtCapture.canCapture cfg.cooldownSeconds
                  (AIArtCapture.pirCleared cfg s).lastCaptureTime env.gateTime)) with h1 | h1
              · exact absurd h1 hGate
              · exact h1
            rcases hFF : env.finalFrame with _ | fr2
            · exact Or.inl ⟨true, true, by simp [hAct, hGf, hFF]⟩
            · by_cases hFull : cfg.useFullFrame = true
              · exact Or.inr ⟨⟨true, none, false, by simp [hAct, hGf, hFF, hFull]⟩, hgle hGate⟩
              · have hFf : cfg.useFullFrame = false := by
                  rcases Bool.eq_false_or_eq_true cfg.useFullFrame with h1 | h1
                  · exact absurd h1 hFull
                  · exact h1
                exact Or.inr ⟨⟨true, some bbox,
                  decide (((bbox.width * bbox.height : Int) : ℚ) /
                    ((fr2.width : ℚ) * (fr2.height : ℚ)) < cfg.minBboxShare),
                  by simp [hAct, hGf, hFF, hFf]⟩, hgle hGate⟩
      · have hActf : cfg.detectionActive = false := by
          rcases Bool.eq_false_or_eq_true cfg.detectionActive with h1 | h1
          · exact absurd h1 hAct
          · exact h1
        by_cases hGate : (!(AIArtCapture.canCapture cfg.cooldownSeconds
            (AIArtCapture.pirCleared cfg s).lastCaptureTime env.gateTime)) = true
        · exact Or.inl ⟨true, false, by simp [hActf, hGate]⟩
        · have hGf : (!(AIArtCapture.canCapture cfg.cooldownSeconds
              (AIArtCapture.pirCleared cfg s).lastCaptureTime env.gateTime)) = false := by
            rcases Bool.eq_false_or_eq_true (!(AIArtCapture.canCapture cfg.cooldownSeconds
                (AIArtCapture.pirCleared cfg s).lastCaptureTime env.gateTime)) with h1 | h1
            · exact absurd h1 hGate
            · exact h1
          exact Or.inr ⟨⟨false, none, false, by simp [hActf, hGf]⟩, hgle hGate⟩

/-- A tick that returns `True` did so through a reported upload success, with
the cooldown gate passed and `last_capture_time` rewritten to the
upload-success time read. -/
lemma processFrame_success_spec (cfg : CaptureConfig) (env : TickEnv) (s : EngineState)
    (h : (AIArtCapture.processFrame cfg env s).success = true) :
    env.uploadSuccess = true ∧
    (AIArtCapture.processFrame cfg env s).uploadAttempted = true ∧
    (AIArtCapture.processFrame cfg env s).state.lastCaptureTime = env.uploadTime ∧
    cfg.cooldownSeconds ≤ env.gateTime - s.lastCaptureTime := by
  rcases processFrame_outcomes cfg env s with ⟨fa, fi, heq⟩ | ⟨⟨fi, ch, ex, heq⟩, hq⟩
  · rw [heq] at h
    simp at h
  · rw [heq] at h ⊢
    obtain ⟨h1, h2, h3⟩ :=
      (encodeAndUpload_spec cfg env (AIArtCapture.pirCleared cfg s) fi ch ex).1 h
    exact ⟨h1, h2, by rw [h3], hq⟩

/-- A tick that returns `False` leaves `last_capture_time` untouched. -/
lemma processFrame_fail_spec (cfg : CaptureConfig) (env : TickEnv) (s : EngineState)
    (h : (AIArtCapture.processFrame cfg env s).success = false) :
    (AIArtCapture.processFrame cfg env s).state.lastCaptureTime = s.lastCaptureTime := by
  rcases processFrame_outcomes cfg env s with ⟨fa, fi, heq⟩ | ⟨⟨fi, ch, ex, heq⟩, hq⟩
  · rw [heq]
    exact pirCleared_lastCaptureTime cfg s
  · rw [heq] at h ⊢
    rw [(encodeAndUpload_spec cfg env (AIArtCapture.pirCleared cfg s) fi ch ex).2.1 h]
    exact pirCleared_lastCaptureTime cfg s

/-- If the upload is attempted and the client reports success, the tick
returns `True`. -/
lemma processFrame_upload_spec (cfg : CaptureConfig) (env : TickEnv) (s : EngineState)
    (hu : (AIArtCapture.processFrame cfg env s).uploadAttempted = true)
    (hs : env.uploadSuccess = true) :
    (AIArtCapture.processFrame cfg env s).success = true := by
  rcases processFrame_outcomes cfg env s with ⟨fa, fi, heq⟩ | ⟨⟨fi, ch, ex, heq⟩, hq⟩
  · rw [heq] at hu
    simp at hu
  · rw [heq] at hu ⊢
    exact (encodeAndUpload_spec cfg env (AIArtCapture.pirCleared cfg s) fi ch ex).2.2 hu hs

/-- C2: `last_capture_time` is assigned exactly at the point where the upload
client reports success (to the wall-clock read taken there), it is unchanged
on upload failure or any earlier abort of the cycle, and it only ever
increases (the wall clock having advanced past its previous value). -/
theorem lastCaptureTime_monotonic (cfg : CaptureConfig) (env : TickEnv) (s : EngineState)
    (hmono : s.lastCaptureTime ≤ env.uploadTime) :
    ((AIArtCapture.processFrame cfg env s).success = true →
      env.uploadSuccess = true ∧
      (AIArtCapture.processFrame cfg env s).state.lastCaptureTime = env.uploadTime) ∧
    ((AIArtCapture.processFrame cfg env s).success = false →
      (AIArtCapture.processFrame cfg env s).state.lastCaptureTime = s.lastCaptureTime) ∧
    ((AIArtCapture.processFrame cfg env s).uploadAttempted = true → env.uploadSuccess = true →
      (AIArtCapture.processFrame cfg env s).success = true) ∧
    s.lastCaptureTime ≤ (AIArtCapture.processFrame cfg env s).state.lastCaptureTime := by
  refine ⟨fun h => ⟨(processFrame_success_spec cfg env s h).1,
      (processFrame_success_spec cfg env s h).2.2.1⟩,
    fun h => processFrame_fail_spec cfg env s h,
    fun hu hs => processFrame_upload_spec cfg env s hu hs, ?_⟩
  rcases Bool.eq_false_or_eq_true (AIArtCapture.processFrame cfg env s).success with h | h
  · rw [(processFrame_success_spec cfg env s h).2.2.1]
    exact hmono
  · rw [processFrame_fail_spec cfg env s h]

/-- A configuration with the defaults of src/raspberry/config.py (cooldown 5s,
`min_bbox_area_ratio` 0.15, `bbox_scale_up` 1.3), PIR off, detection on. -/
def sampleCfg : CaptureConfig :=
  { pirEnabled := false, requirePir := false, detectionActive := true
    cooldownSeconds := 5, useFullFrame := true, minBboxShare := 3 / 20
    bboxScaleUp := 13 / 10, apiClientPresent := true }

/-- The same configuration with the PIR hard gate in force. -/
def samplePirCfg : CaptureConfig :=
  { sampleCfg with pirEnabled := true, requirePir := true }

/-- A detection covering part of a 1280x720 frame. -/
def sampleBox : BoundingBox := ⟨10, 10, 50, 80, 9 / 10⟩

/-- Inputs for a tick in which every stage succeeds. -/
def sampleEnv : TickEnv :=
  { gateTime := 100, uploadTime := 101, firstFrame := some ⟨1280, 720⟩
    finalFrame := some ⟨1280, 720⟩, detections := [sampleBox]
    encodeOk := true, uploadSuccess := true }

/-- Inputs for a tick in which the detector returns no detections. -/
def sampleEmptyEnv : TickEnv :=
  { sampleEnv with detections := [] }

/-- Engine state with no pending PIR motion. -/
def sampleState : EngineState := { lastCaptureTime := 0, pirMotionDetected := false }

/-- Engine state with a pending PIR motion flag. -/
def samplePirState : EngineState := { lastCaptureTime := 0, pirMotionDetected := true }

/-- Witness for C2 at a tick where every stage succeeds. -/
theorem lastCaptureTime_monotonic_wit :
    sampleState.lastCaptureTime ≤ sampleEnv.uploadTime ∧
    (((AIArtCapture.processFrame sampleCfg sampleEnv sampleState).success = true →
      sampleEnv.uploadSuccess = true ∧
      (AIArtCapture.processFrame sampleCfg sampleEnv sampleState).state.lastCaptureTime
        = sampleEnv.uploadTime) ∧
    ((AIArtCapture.processFrame sampleCfg sampleEnv sampleState).success = false →
      (AIArtCapture.processFrame sampleCfg sampleEnv sampleState).state.lastCaptureTime
        = sampleState.lastCaptureTime) ∧
    ((AIArtCapture.processFrame sampleCfg sampleEnv sampleState).uploadAttempted = true →
      sampleEnv.uploadSuccess = true →
      (AIArtCapture.processFrame sampleCfg sampleEnv sampleState).success = true) ∧
    sampleState.lastCaptureTime ≤
      (AIArtCapture.processFrame sampleCfg sampleEnv sampleState).state.lastCaptureTime) :=
  ⟨by norm_num [sampleState, sampleEnv],
    lastCaptureTime_monotonic sampleCfg sampleEnv sampleState
      (by norm_num [sampleState, sampleEnv])⟩

/-- C6: with the PIR gate in force (`pir_required` and sensor active) and no
pending motion flag, the tick aborts before any camera capture: the whole
result is the untouched state, no capture attempts, no upload, no success. -/
theorem pir_gate_blocks (cfg : CaptureConfig) (env : TickEnv) (s : EngineState)
    (hp : cfg.pirEnabled = true) (hr : cfg.requirePir = true)
    (hm : s.pirMotionDetected = false) :
    AIArtCapture.processFrame cfg env s = ⟨s, false, false, false, false, none, false⟩ := by
  simp [AIArtCapture.processFrame, AIArtCapture.pirCleared, hp, hr, hm]

/-- Witness for C6: the PIR-gated tick is a no-op at the sample inputs. -/
theorem pir_gate_blocks_wit :
    AIArtCapture.processFrame samplePirCfg sampleEnv sampleState
      = ⟨sampleState, false, false, false, false, none, false⟩ :=
  pir_gate_blocks samplePirCfg sampleEnv sampleState rfl rfl rfl

/-- C7: PIR fired and is required, detection is active, the first capture
succeeds, and the detector returns an empty list: the tick aborts right after
the detection step — no final capture, no upload, no success — with the
pending-motion flag already cleared and `last_capture_time` untouched. -/
theorem pir_fires_empty_detection (cfg : CaptureConfig) (env : TickEnv) (s : EngineState)
    (f : Frame) (hp : cfg.pirEnabled = true) (hr : cfg.requirePir = true)
    (hm : s.pirMotionDetected = true) (hd : cfg.detectionActive = true)
    (hdet : env.detections = []) (hf : env.firstFrame = some f) :
    AIArtCapture.processFrame cfg env s =
      ⟨{ s with pirMotionDetected := false }, false, true, false, false, none, false⟩ := by
  simp [AIArtCapture.processFrame, AIArtCapture.pirCleared, hp, hr, hm, hd, hdet, hf]

/-- Witness for C7 at the sample inputs with an empty detection list. -/
theorem pir_fires_empty_detection_wit :
    AIArtCapture.processFrame samplePirCfg sampleEmptyEnv samplePirState =
      ⟨{ samplePirState with pirMotionDetected := false },
        false, true, false, false, none, false⟩ :=
  pir_fires_empty_detection samplePirCfg sampleEmptyEnv samplePirState ⟨1280, 720⟩
    rfl rfl rfl rfl rfl rfl

/-- The first capture time recorded after state `s` is at least a cooldown
beyond `s.lastCaptureTime`, provided each tick's upload-time read is no
earlier than its gate-time read. -/
lemma runCaptureTimes_head (cfg : CaptureConfig) (envs : List TickEnv) :
    ∀ (s : EngineState), (∀ e ∈ envs, e.gateTime ≤ e.uploadTime) →
    ∀ t, (runCaptureTimes cfg s envs).head? = some t →
    cfg.cooldownSeconds ≤ t - s.lastCaptureTime := by
  induction envs with
  | nil =>
    intro s _ t ht
    simp [runCaptureTimes] at ht
  | cons e rest ih =>
    intro s hwt t ht
    rcases Bool.eq_false_or_eq_true (AIArtCapture.processFrame cfg e s).success with hs | hs
    · simp only [runCaptureTimes, hs, if_true, List.head?_cons, Option.some.injEq] at ht
      obtain ⟨h1, h2, h3, h4⟩ := processFrame_success_spec cfg e s hs
      have hge : e.gateTime ≤ e.uploadTime := hwt e (List.mem_cons_self e rest)
      rw [← ht, h3]
      linarith
    · simp only [runCaptureTimes, hs] at ht
      have hlast := processFrame_fail_spec cfg e s hs
      have := ih (AIArtCapture.processFrame cfg e s).state
        (fun e2 he2 => hwt e2 (List.mem_cons_of_mem _ he2)) t (by simpa using ht)
      rw [hlast] at this
      exact this

/-- The recorded capture times of any run are spaced by at least the cooldown. -/
lemma runCaptureTimes_chain (cfg : CaptureConfig) (envs : List TickEnv) :
    ∀ (s : EngineState), (∀ e ∈ envs, e.gateTime ≤ e.uploadTime) →
    List.Chain' (fun t1 t2 => cfg.cooldownSeconds ≤ t2 - t1) (runCaptureTimes cfg s envs) := by
  induction envs with
  | nil =>
    intro s _
    simp [runCaptureTimes]
  | cons e rest ih =>
    intro s hwt
    have hwt2 : ∀ e2 ∈ rest, e2.gateTime ≤ e2.uploadTime :=
      fun e2 he2 => hwt e2 (List.mem_cons_of_mem _ he2)
    rcases Bool.eq_false_or_eq_true (AIArtCapture.processFrame cfg e s).success with hs | hs
    · simp only [runCaptureTimes, hs, if_true]
      rw [List.chain'_cons']
      refine ⟨fun t2 ht2 => ?_, ih _ hwt2⟩
      rw [Option.mem_def] at ht2
      exact runCaptureTimes_head cfg rest (AIArtCapture.processFrame cfg e s).state hwt2 t2 ht2
    · simp only [runCaptureTimes, hs]
      simpa using ih (AIArtCapture.processFrame cfg e s).state hwt2

/-- A second all-stages-succeed tick, one cooldown after `sampleEnv`. -/
def sampleEnvLater : TickEnv :=
  { sampleEnv with gateTime := 106, uploadTime := 106 }

/-- C3: consecutive successful captures are at least `cooldown_seconds` apart
(the recorded `last_capture_time` values form a chain with gaps of at least
the cooldown), and a cycle can only succeed when the gate-time read minus the
previous `last_capture_time` is at least `cooldown_seconds`. The wall-clock
hypothesis says each tick's upload-success read is no earlier than its
cooldown-gate read. -/
theorem cooldown_between_captures (cfg : CaptureConfig) (envs : List TickEnv)
    (s : EngineState) (hwt : ∀ e ∈ envs, e.gateTime ≤ e.uploadTime) :
    List.Chain' (fun t1 t2 => cfg.cooldownSeconds ≤ t2 - t1) (runCaptureTimes cfg s envs) ∧
    (∀ (e : TickEnv) (s2 : EngineState), (AIArtCapture.processFrame cfg e s2).success = true →
      cfg.cooldownSeconds ≤ e.gateTime - s2.lastCaptureTime) :=
  ⟨runCaptureTimes_chain cfg envs s hwt,
    fun e s2 h => (processFrame_success_spec cfg e s2 h).2.2.2⟩

/-- Witness for C3: a two-tick run, both ticks succeeding, upload reads no
earlier than gate reads. -/
theorem cooldown_between_captures_wit :
    List.Chain' (fun t1 t2 => sampleCfg.cooldownSeconds ≤ t2 - t1)
      (runCaptureTimes sampleCfg sampleState [sampleEnv, sampleEnvLater]) ∧
    (∀ (e : TickEnv) (s2 : EngineState),
      (AIArtCapture.processFrame sampleCfg e s2).success = true →
      sampleCfg.cooldownSeconds ≤ e.gateTime - s2.lastCaptureTime) :=
  cooldown_between_captures sampleCfg [sampleEnv, sampleEnvLater] sampleState
    (by norm_num [List.forall_mem_cons, sampleEnv, sampleEnvLater])

/-! Section: Person detector claims -/

/-- The chosen-detection field passes through the encode/upload tail. -/
lemma encodeAndUpload_chosen (cfg : CaptureConfig) (env : TickEnv) (s1 : EngineState)
    (fa : Bool) (ch : Option BoundingBox) (ex : Bool) :
    (encodeAndUpload cfg env s1 fa ch ex).chosenDetection = ch := by
  unfold encodeAndUpload
  split_ifs <;> rfl

/-- The engine never re-sorts: when the crop path picks a detection, it is the
head of the detector's list. -/
lemma processFrame_chosen (cfg : CaptureConfig) (env : TickEnv) (s : EngineState) :
    (AIArtCapture.processFrame cfg env s).chosenDetection = none ∨
    (AIArtCapture.processFrame cfg env s).chosenDetection = env.detections.head? := by
  rcases processFrame_outcomes cfg env s with ⟨fa, fi, heq⟩ | ⟨⟨fi, ch, ex, heq⟩, hq⟩
  · rw [heq]
    exact Or.inl rfl
  · -- re-run the branch analysis, now tracking which `ch` the tail received
    unfold AIArtCapture.processFrame
    by_cases hA : (cfg.pirEnabled && cfg.requirePir && !(cfg.pirEnabled && s.pirMotionDetected))
        = true
    · rw [if_pos hA]
      exact Or.inl rfl
    · rw [if_neg hA]
      rcases hF : env.firstFrame with _ | fr
      · exact Or.inl rfl
      · by_cases hAct : cfg.detectionActive = true
        · rcases hD : env.detections with _ | ⟨bbox, rest⟩
          · exact Or.inl (by simp [hAct, hD])
          · by_cases hGate : (!(AIArtCapture.canCapture cfg.cooldownSeconds
                (AIArtCapture.pirCleared cfg s).lastCaptureTime env.gateTime)) = true
            · exact Or.inl (by simp [hAct, hGate])
            · have hGf : (!(AIArtCapture.canCapture cfg.cooldownSeconds
                  (AIArtCapture.pirCleared cfg s).lastCaptureTime env.gateTime)) = false := by
                rcases Bool.eq_false_or_eq_true (!(AIArtCapture.canCapture cfg.cooldownSeconds
                    (AIArtCapture.pirCleared cfg s).lastCaptureTime env.gateTime)) with h1 | h1
                · exact absurd h1 hGate
                · exact h1
              rcases hFF : env.finalFrame with _ | fr2
              · exact Or.inl (by simp [hAct, hGf, hFF])
              · by_cases hFull : cfg.useFullFrame = true
                · exact Or.inl (by simp [hAct, hGf, hFF, hFull, encodeAndUpload_chosen])
                · have hFf : cfg.useFullFrame = false := by
                    rcases Bool.eq_false_or_eq_true cfg.useFullFrame with h1 | h1
                    · exact absurd h1 hFull
                    · exact h1
                  refine Or.inr ?_
                  simp [hAct, hGf, hFF, hFf, encodeAndUpload_chosen]
        · have hActf : cfg.detectionActive = false := by
            rcases Bool.eq_false_or_eq_true cfg.detectionActive with h1 | h1
            · exact absurd h1 hAct
            · exact h1
          by_cases hGate : (!(AIArtCapture.canCapture cfg.cooldownSeconds
              (AIArtCapture.pirCleared cfg s).lastCaptureTime env.gateTime)) = true
          · exact Or.inl (by simp [hActf, hGate])
          · have hGf : (!(AIArtCapture.canCapture cfg.cooldownSeconds
                (AIArtCapture.pirCleared cfg s).lastCaptureTime env.gateTime)) = false := by
              rcases Bool.eq_false_or_eq_true (!(AIArtCapture.canCapture cfg.cooldownSeconds
                  (AIArtCapture.pirCleared cfg s).lastCaptureTime env.gateTime)) with h1 | h1
              · exact absurd h1 hGate
              · exact h1
            exact Or.inl (by simp [hActf, hGf, encodeAndUpload_chosen])

/-- Every box kept by the HOG loop at start index `i` carries the capped
per-index confidence of some index `k ≥ i`. -/
lemma hogLoop_confidence_mem (minConf : ℚ) (fw fh : Nat) (weights : Option (List ℚ)) :
    ∀ (i : Nat) (rs : List Rect) (b : BoundingBox), b ∈ hogLoop minConf fw fh weights i rs →
    ∃ k, i ≤ k ∧ b.confidence = min 1 (hogConfidence weights k) := by
  intro i rs
  induction rs generalizing i with
  | nil =>
    intro b hb
    simp [hogLoop] at hb
  | cons r rest ih =>
    intro b hb
    simp only [hogLoop] at hb
    by_cases hc : hogConfidence weights i < minConf
    · rw [if_pos hc] at hb
      obtain ⟨k, hik, hconf⟩ := ih (i + 1) b hb
      exact ⟨k, le_trans (Nat.le_succ i) hik, hconf⟩
    · rw [if_neg hc] at hb
      rcases List.mem_cons.mp hb with hhd | htl
      · exact ⟨i, le_refl i, by rw [hhd]; rfl⟩
      · obtain ⟨k, hik, hconf⟩ := ih (i + 1) b htl
        exact ⟨k, le_trans (Nat.le_succ i) hik, hconf⟩

/-- If the underlying per-index confidence sequence is non-increasing, the HOG
loop's output is sorted by confidence, highest first. -/
lemma hogLoop_sorted (minConf : ℚ) (fw fh : Nat) (weights : Option (List ℚ))
    (hmono : ∀ i j : Nat, i ≤ j → hogConfidence weights j ≤ hogConfidence weights i) :
    ∀ (i : Nat) (rs : List Rect),
    List.Pairwise (fun b1 b2 => b2.confidence ≤ b1.confidence)
      (hogLoop minConf fw fh weights i rs) := by
  intro i rs
  induction rs generalizing i with
  | nil => simp [hogLoop]
  | cons r rest ih =>
    simp only [hogLoop]
    by_cases hc : hogConfidence weights i < minConf
    · rw [if_pos hc]
      exact ih (i + 1)
    · rw [if_neg hc]
      refine List.Pairwise.cons (fun b hb => ?_) (ih (i + 1))
      obtain ⟨k, hik, hconf⟩ := hogLoop_confidence_mem minConf fw fh weights (i + 1) rest b hb
      rw [hconf]
      show min 1 (hogConfidence weights k) ≤ min 1 (hogConfidence weights i)
      exact min_le_min le_rfl (hmono i k (le_trans (Nat.le_succ i) hik))

/-- C9 counterexample: `detect` does not sort. With `detectMultiScale`
returning two rectangles whose weights are `[0.6, 0.9]` (both above the 0.5
threshold), `detect` returns the boxes in that same order, so the returned
list is not ordered highest confidence first. -/
theorem detect_order_cex :
    ((PersonDetector.detect (1 / 2) ⟨true, true, true⟩ 100 100
        (MultiScaleOutcome.ok [⟨0, 0, 10, 10⟩, ⟨20, 20, 10, 10⟩]
          (some [3 / 5, 9 / 10]))).map BoundingBox.confidence = [3 / 5, 9 / 10]) ∧
    ¬ List.Pairwise (fun a b : ℚ => b ≤ a)
      ((PersonDetector.detect (1 / 2) ⟨true, true, true⟩ 100 100
        (MultiScaleOutcome.ok [⟨0, 0, 10, 10⟩, ⟨20, 20, 10, 10⟩]
          (some [3 / 5, 9 / 10]))).map BoundingBox.confidence) := by
  have hmap : (PersonDetector.detect (1 / 2) ⟨true, true, true⟩ 100 100
      (MultiScaleOutcome.ok [⟨0, 0, 10, 10⟩, ⟨20, 20, 10, 10⟩]
        (some [3 / 5, 9 / 10]))).map BoundingBox.confidence = [3 / 5, 9 / 10] := by
    norm_num [PersonDetector.detect, hogLoop, hogConfidence, hogPadBox, min_def]
  refine ⟨hmap, ?_⟩
  rw [hmap]
  norm_num [List.pairwise_cons]

/-- C9 (amended): `detect` preserves the order of the `detectMultiScale`
results it keeps; its output is ordered highest confidence first whenever the
per-index confidences of the underlying call are non-increasing; and the
engine acts only on the first element of the returned list, never re-sorting. -/
theorem detect_order_amended (minConf : ℚ) (fw fh : Nat) (rects : List Rect)
    (weights : Option (List ℚ))
    (hmono : ∀ i j : Nat, i ≤ j → hogConfidence weights j ≤ hogConfidence weights i) :
    List.Pairwise (fun b1 b2 => b2.confidence ≤ b1.confidence)
      (PersonDetector.detect minConf ⟨true, true, true⟩ fw fh
        (MultiScaleOutcome.ok rects weights)) ∧
    (∀ (cfg : CaptureConfig) (env : TickEnv) (s : EngineState),
      (AIArtCapture.processFrame cfg env s).chosenDetection = none ∨
      (AIArtCapture.processFrame cfg env s).chosenDetection = env.detections.head?) := by
  constructor
  · show List.Pairwise _ (hogLoop minConf fw fh weights 0 rects)
    exact hogLoop_sorted minConf fw fh weights hmono 0 rects
  · exact fun cfg env s => processFrame_chosen cfg env s

/-- Witness for C9's amended theorem: with weights that are not a Python
list/tuple every kept detection has confidence 0.5, a non-increasing sequence. -/
theorem detect_order_amended_wit :
    List.Pairwise (fun b1 b2 => b2.confidence ≤ b1.confidence)
      (PersonDetector.detect (1 / 2) ⟨true, true, true⟩ 100 100
        (MultiScaleOutcome.ok [⟨0, 0, 10, 10⟩, ⟨20, 20, 10, 10⟩] none)) ∧
    (∀ (cfg : CaptureConfig) (env : TickEnv) (s : EngineState),
      (AIArtCapture.processFrame cfg env s).chosenDetection = none ∨
      (AIArtCapture.processFrame cfg env s).chosenDetection = env.detections.head?) :=
  detect_order_amended (1 / 2) 100 100 [⟨0, 0, 10, 10⟩, ⟨20, 20, 10, 10⟩] none
    (fun _ _ _ => le_of_eq rfl)

/-- C10: once `initialize()` has run, a detection failure — OpenCV missing,
the HOG detector object absent, or `detectMultiScale` raising — makes
`detect` return the single fabricated box covering the center half of the
frame with confidence 0.95, for every `min_detection_confidence`, never an
empty list and never a propagated error. -/
theorem detect_failure_mock (minConf : ℚ) (st : DetectorState) (fw fh : Nat)
    (outcome : MultiScaleOutcome) (hinit : st.isInitialized = true)
    (hfail : st.hasCv2 = false ∨ st.hasDetector = false ∨
      outcome = MultiScaleOutcome.err) :
    PersonDetector.detect minConf st fw fh outcome = [mockBoundingBox fw fh] ∧
    PersonDetector.detect minConf st fw fh outcome ≠ [] ∧
    (mockBoundingBox fw fh).confidence = 95 / 100 ∧
    (mockBoundingBox fw fh).x = (fw / 4 : Nat) ∧ (mockBoundingBox fw fh).y = (fh / 4 : Nat) ∧
    (mockBoundingBox fw fh).width = (fw / 2 : Nat) ∧
    (mockBoundingBox fw fh).height = (fh / 2 : Nat) := by
  have h1 : PersonDetector.detect minConf st fw fh outcome = [mockBoundingBox fw fh] := by
    rcases hfail with hf | hf | hf
    · simp [PersonDetector.detect, hinit, hf]
    · simp [PersonDetector.detect, hinit, hf]
    · rcases Bool.eq_false_or_eq_true st.hasCv2 with hc2 | hc2 <;>
        rcases Bool.eq_false_or_eq_true st.hasDetector with hd2 | hd2 <;>
        simp [PersonDetector.detect, hinit, hf, hc2, hd2]
  exact ⟨h1, by rw [h1]; simp, rfl, rfl, rfl, rfl, rfl⟩

/-- Witness for C10: detector object absent, threshold set above 0.95 — the
fabricated box still comes back, bypassing the confidence filter. -/
theorem detect_failure_mock_wit :
    PersonDetector.detect (99 / 100) ⟨true, true, false⟩ 100 80 MultiScaleOutcome.err
      = [mockBoundingBox 100 80] ∧
    PersonDetector.detect (99 / 100) ⟨true, true, false⟩ 100 80 MultiScaleOutcome.err ≠ [] ∧
    (mockBoundingBox 100 80).confidence = 95 / 100 ∧
    (mockBoundingBox 100 80).x = (100 / 4 : Nat) ∧ (mockBoundingBox 100 80).y = (80 / 4 : Nat) ∧
    (mockBoundingBox 100 80).width = (100 / 2 : Nat) ∧
    (mockBoundingBox 100 80).height = (80 / 2 : Nat) :=
  detect_failure_mock (99 / 100) ⟨true, true, false⟩ 100 80 MultiScaleOutcome.err rfl
    (Or.inr (Or.inl rfl))

/-! Section: Bounding-box expansion claim -/

/-- C1: when the crop path scales an in-frame detection box (spec data model:
integer pixel offsets within a frame) up around its own center by a
`bbox_scale_up` factor of at least 1 — as it does whenever the box's area
share of the frame is below `min_bbox_area_ratio` — the resulting region has
area share at least the original share, and its coordinates are clamped to
the frame: never negative and never beyond the frame's width or height. -/
theorem expandBbox_grows_and_clamped (b : BoundingBox) (frameW frameH scale minShare : ℚ)
    (hW : 0 < frameW) (hH : 0 < frameH) (hscale : 1 ≤ scale)
    (hx : 0 ≤ (b.x : ℚ)) (hy : 0 ≤ (b.y : ℚ))
    (hw0 : 0 ≤ (b.width : ℚ)) (hh0 : 0 ≤ (b.height : ℚ))
    (hx2 : ((b.x2 : Int) : ℚ) ≤ frameW) (hy2 : ((b.y2 : Int) : ℚ) ≤ frameH)
    (hsmall : ((b.width : ℚ) * (b.height : ℚ)) / (frameW * frameH) < minShare) :
    0 ≤ (ImageSegmenter.expandBbox b frameW frameH scale).x1 ∧
    (ImageSegmenter.expandBbox b frameW frameH scale).x1
      ≤ (ImageSegmenter.expandBbox b frameW frameH scale).x2 ∧
    (ImageSegmenter.expandBbox b frameW frameH scale).x2 ≤ frameW ∧
    0 ≤ (ImageSegmenter.expandBbox b frameW frameH scale).y1 ∧
    (ImageSegmenter.expandBbox b frameW frameH scale).y1
      ≤ (ImageSegmenter.expandBbox b frameW frameH scale).y2 ∧
    (ImageSegmenter.expandBbox b frameW frameH scale).y2 ≤ frameH ∧
    ((b.width : ℚ) * (b.height : ℚ)) / (frameW * frameH)
      ≤ (ImageSegmenter.expandBbox b frameW frameH scale).area / (frameW * frameH) := by
  have hbx2 : ((b.x2 : Int) : ℚ) = (b.x : ℚ) + (b.width : ℚ) := by
    unfold BoundingBox.x2
    push_cast
    ring
  have hby2 : ((b.y2 : Int) : ℚ) = (b.y : ℚ) + (b.height : ℚ) := by
    unfold BoundingBox.y2
    push_cast
    ring
  rw [hbx2] at hx2
  rw [hby2] at hy2
  have hwle : (b.width : ℚ) ≤ (b.width : ℚ) * scale := le_mul_of_one_le_right hw0 hscale
  have hhle : (b.height : ℚ) ≤ (b.height : ℚ) * scale := le_mul_of_one_le_right hh0 hscale
  simp only [ImageSegmenter.expandBbox, RatBox.area]
  have hxlo : max 0 ((b.x : ℚ) + (b.width : ℚ) / 2 - (b.width : ℚ) * scale / 2) ≤ (b.x : ℚ) :=
    max_le hx (by linarith)
  have hxhi : (b.x : ℚ) + (b.width : ℚ)
      ≤ min frameW ((b.x : ℚ) + (b.width : ℚ) / 2 + (b.width : ℚ) * scale / 2) :=
    le_min hx2 (by linarith)
  have hylo : max 0 ((b.y : ℚ) + (b.height : ℚ) / 2 - (b.height : ℚ) * scale / 2) ≤ (b.y : ℚ) :=
    max_le hy (by linarith)
  have hyhi : (b.y : ℚ) + (b.height : ℚ)
      ≤ min frameH ((b.y : ℚ) + (b.height : ℚ) / 2 + (b.height : ℚ) * scale / 2) :=
    le_min hy2 (by linarith)
  refine ⟨le_max_left _ _, by linarith, min_le_left _ _, le_max_left _ _, by linarith,
    min_le_left _ _, ?_⟩
  have hXw : (b.width : ℚ)
      ≤ min frameW ((b.x : ℚ) + (b.width : ℚ) / 2 + (b.width : ℚ) * scale / 2)
        - max 0 ((b.x : ℚ) + (b.width : ℚ) / 2 - (b.width : ℚ) * scale / 2) := by
    linarith
  have hYh : (b.height : ℚ)
      ≤ min frameH ((b.y : ℚ) + (b.height : ℚ) / 2 + (b.height : ℚ) * scale / 2)
        - max 0 ((b.y : ℚ) + (b.height : ℚ) / 2 - (b.height : ℚ) * scale / 2) := by
    linarith
  have harea : (b.width : ℚ) * (b.height : ℚ)
      ≤ (min frameW ((b.x : ℚ) + (b.width : ℚ) / 2 + (b.width : ℚ) * scale / 2)
          - max 0 ((b.x : ℚ) + (b.width : ℚ) / 2 - (b.width : ℚ) * scale / 2))
        * (min frameH ((b.y : ℚ) + (b.height : ℚ) / 2 + (b.height : ℚ) * scale / 2)
          - max 0 ((b.y : ℚ) + (b.height : ℚ) / 2 - (b.height : ℚ) * scale / 2)) :=
    mul_le_mul hXw hYh hh0 (le_trans hw0 hXw)
  have hpos : (0 : ℚ) < frameW * frameH := mul_pos hW hH
  exact (div_le_div_iff_of_pos_right hpos).mpr harea

/-- Witness for C1: the sample detection in a 1280x720 frame, scaled up by the
default factor 1.3, after its area share 4000/921600 falls below the default
threshold 0.15. -/
theorem expandBbox_grows_and_clamped_wit :
    0 ≤ (ImageSegmenter.expandBbox sampleBox 1280 720 (13 / 10)).x1 ∧
    (ImageSegmenter.expandBbox sampleBox 1280 720 (13 / 10)).x1
      ≤ (ImageSegmenter.expandBbox sampleBox 1280 720 (13 / 10)).x2 ∧
    (ImageSegmenter.expandBbox sampleBox 1280 720 (13 / 10)).x2 ≤ 1280 ∧
    0 ≤ (ImageSegmenter.expandBbox sampleBox 1280 720 (13 / 10)).y1 ∧
    (ImageSegmenter.expandBbox sampleBox 1280 720 (13 / 10)).y1
      ≤ (ImageSegmenter.expandBbox sampleBox 1280 720 (13 / 10)).y2 ∧
    (ImageSegmenter.expandBbox sampleBox 1280 720 (13 / 10)).y2 ≤ 720 ∧
    ((sampleBox.width : ℚ) * (sampleBox.height : ℚ)) / ((1280 : ℚ) * (720 : ℚ))
      ≤ (ImageSegmenter.expandBbox sampleBox 1280 720 (13 / 10)).area
        / ((1280 : ℚ) * (720 : ℚ)) :=
  expandBbox_grows_and_clamped sampleBox 1280 720 (13 / 10) (3 / 20)
    (by norm_num) (by norm_num) (by norm_num)
    (by norm_num [sampleBox]) (by norm_num [sampleBox])
    (by norm_num [sampleBox]) (by norm_num [sampleBox])
    (by norm_num [sampleBox, BoundingBox.x2]) (by norm_num [sampleBox, BoundingBox.y2])
    (by norm_num [sampleBox])
